import Mathlib

/- Shallow embedding of the VibeSphere WebXR media browser (src/main.js).

The program keeps a handful of module-level mutable variables
(currentItem, currentPlaylistId, currentPlaylistIndex, audioEnabled,
isPlaying, hoveredPanel) together with the state of the single HTML
video element (src, currentTime, duration, volume, muted, loop) and the
visual state of the four trending panels (scale, emissive intensity).
We model this combined mutable state as the record AppState and each
DOM/XR event handler of main.js as a pure transition AppState → AppState.
Machine floats of the source are modelled as rationals; the browser
video clock and Math.sin are modelled abstractly where they appear. -/

namespace VibeSphere

/-- A trending item, as in the trendingItems array of main.js. -/
structure Item where
  id : Nat
  title : String
  color : Nat
  descr : String
  playlistId : String
deriving DecidableEq

/-- The playlists object of main.js: a map from playlist id to the list
of video URLs, with lookup returning none for an unknown key. -/
def playlists (pid : String) : Option (List String) :=
  if pid = "creators" then
    some ["https://commondatastorage.googleapis.com/gtv-videos-bucket/sample/BigBuckBunny.mp4",
          "https://commondatastorage.googleapis.com/gtv-videos-bucket/sample/ElephantsDream.mp4"]
  else if pid = "music" then
    some ["https://commondatastorage.googleapis.com/gtv-videos-bucket/sample/ForBiggerJoyrides.mp4",
          "https://commondatastorage.googleapis.com/gtv-videos-bucket/sample/ForBiggerBlazes.mp4"]
  else if pid = "gaming" then
    some ["https://commondatastorage.googleapis.com/gtv-videos-bucket/sample/ForBiggerEscapes.mp4",
          "https://commondatastorage.googleapis.com/gtv-videos-bucket/sample/ForBiggerFun.mp4"]
  else if pid = "news" then
    some ["https://commondatastorage.googleapis.com/gtv-videos-bucket/sample/Sintel.mp4",
          "https://commondatastorage.googleapis.com/gtv-videos-bucket/sample/TearsOfSteel.mp4"]
  else none

/-- The first trending item of main.js. -/
def item1 : Item :=
  { id := 1, title := "Top Creator Clips", color := 0xff7b7b,
    descr := "A curated wall of viral creator moments.", playlistId := "creators" }

/-- The second trending item of main.js. -/
def item2 : Item :=
  { id := 2, title := "Global Music Vibes", color := 0x7be0ff,
    descr := "Relaxing ocean view loop.", playlistId := "music" }

/-- The third trending item of main.js. -/
def item3 : Item :=
  { id := 3, title := "Gaming Highlights", color := 0x9d7bff,
    descr := "Fast paced race footage.", playlistId := "gaming" }

/-- The fourth trending item of main.js. -/
def item4 : Item :=
  { id := 4, title := "News & Explainers", color := 0xffc857,
    descr := "Short explainer style clip.", playlistId := "news" }

/-- The trendingItems array of main.js. -/
def trendingItems : List Item := [item1, item2, item3, item4]

/-- A scene panel: its userData.item as set in setupPanels (an arbitrary
mesh might carry no item, so the field is optional, matching the guard
in activatePanel). -/
structure Panel where
  item : Option Item
deriving DecidableEq

/-- The panels array built by setupPanels: one panel per trending item,
with userData.item set to that item. -/
def scenePanels : List Panel := trendingItems.map (fun it => { item := some it })

/-- Number of panels in the scene. -/
def numPanels : Nat := trendingItems.length

/-- The htmlVideo.onended property: either no handler, or the
auto-advance closure installed by playFromPlaylist for a playlist id. -/
inductive EndedHandler where
  | noHandler : EndedHandler
  | advance : String → EndedHandler
deriving DecidableEq

/-- The htmlVideo.onloadeddata property: either no handler, or a handler
that calls playVideo. -/
inductive LoadedHandler where
  | noHandler : LoadedHandler
  | play : LoadedHandler
deriving DecidableEq

/-- State of the HTML video element used by main.js. duration is none
while the metadata is unknown (NaN in the browser). -/
structure VideoState where
  src : String
  currentTime : ℚ
  duration : Option ℚ
  volume : ℚ
  muted : Bool
  loop : Bool
deriving DecidableEq

/-- The combined mutable state of main.js: the module-level let
variables, the video element, the registered video event handlers, and
the per-panel visual attributes written by updateHover (modelled as
total functions from panel index). overlayError is the text of the
overlay-error DOM element written by reportError. -/
structure AppState where
  currentItem : Option Item
  currentPlaylistId : Option String
  currentPlaylistIndex : Nat
  audioEnabled : Bool
  isPlaying : Bool
  video : VideoState
  onended : EndedHandler
  onloadeddata : LoadedHandler
  hoveredPanel : Option Nat
  panelScales : Nat → ℚ
  panelEmissives : Nat → ℚ
  overlayError : String

/-- reportError of main.js, as far as state goes: it records the failing
stage in the overlay-error element. -/
def reportError (s : AppState) (stage : String) : AppState :=
  { s with overlayError := stage }

/-- ensureAudioEnabled of main.js. -/
def ensureAudioEnabled (s : AppState) : AppState :=
  if s.audioEnabled then s
  else { s with video := { s.video with muted := false, volume := 1 }, audioEnabled := true }

/-- The resolution of the play() promise inside playVideo of main.js:
isPlaying becomes true and the overlay error text is cleared. -/
def playVideoResolved (s : AppState) : AppState :=
  { s with isPlaying := true, overlayError := "" }

/-- pauseVideo of main.js. -/
def pauseVideo (s : AppState) : AppState :=
  { s with isPlaying := false }

/-- changeVolume of main.js: clamp the new volume into the unit
interval, and unmute when the result is positive. -/
def changeVolume (s : AppState) (delta : ℚ) : AppState :=
  let newVol := max 0 (min 1 (s.video.volume + delta))
  let s1 := { s with video := { s.video with volume := newVol } }
  if 0 < newVol then
    { s1 with video := { s1.video with muted := false }, audioEnabled := true }
  else s1

/-- seekBy of main.js. The browser yields NaN for an unknown duration;
the expression duration-or-zero models the source coercion of that NaN
to 0, and the truthiness test on it becomes a nonzero test. -/
def seekBy (s : AppState) (deltaSeconds : ℚ) : AppState :=
  let duration := s.video.duration.getD 0
  let target0 := s.video.currentTime + deltaSeconds
  let target1 := if target0 < 0 then 0 else target0
  let target2 := if duration ≠ 0 ∧ duration - 1/10 < target1 then duration - 1/10 else target1
  { s with video := { s.video with currentTime := target2 } }

/-- Assigning htmlVideo.src and calling load(): the element resets its
position and forgets the old metadata. -/
def setVideoSrcAndLoad (s : AppState) (url : String) : AppState :=
  { s with video := { s.video with src := url, currentTime := 0, duration := none } }

/-- playFromPlaylist of main.js. On an unknown or empty playlist it
reports an error and returns with the state otherwise untouched; on a
valid playlist it sets the cursor, loads the entry at startIndex mod
length, and installs the play-on-load and auto-advance handlers. -/
def playFromPlaylist (s : AppState) (playlistId : String) (startIndex : Nat) : AppState :=
  match playlists playlistId with
  | Option.none => reportError s "Playlist"
  | Option.some list =>
    if list.length = 0 then reportError s "Playlist"
    else
      let idx := startIndex % list.length
      let url := list.getD idx ""
      let s1 := { s with currentPlaylistId := some playlistId,
                         currentPlaylistIndex := idx, isPlaying := false }
      let s2 := setVideoSrcAndLoad s1 url
      { s2 with onloadeddata := LoadedHandler.play,
                onended := EndedHandler.advance playlistId }

/-- Firing of the ended event: run the registered onended handler. The
advance closure of playFromPlaylist reads currentPlaylistIndex at fire
time and replays the captured playlist at the next index mod length.
The closure captures a list that was present and nonempty, so the
fallthrough branches only make the model total. -/
def fireEnded (s : AppState) : AppState :=
  match s.onended with
  | EndedHandler.noHandler => s
  | EndedHandler.advance pid =>
    match playlists pid with
    | Option.none => s
    | Option.some list =>
      if list.length = 0 then s
      else playFromPlaylist s pid ((s.currentPlaylistIndex + 1) % list.length)

/-- Firing of the loadeddata event: run the registered handler, which
calls playVideo; we model a successful play() resolution. -/
def fireLoadedData (s : AppState) : AppState :=
  match s.onloadeddata with
  | LoadedHandler.noHandler => s
  | LoadedHandler.play => playVideoResolved s

/-- activatePanel of main.js: guard against a missing panel or item,
record the item as current, enable audio, and play its playlist from
index 0 (the playlistId string is truthy when nonempty). -/
def activatePanel (s : AppState) (panel : Option Panel) : AppState :=
  match panel with
  | Option.none => s
  | Option.some p =>
    match p.item with
    | Option.none => s
    | Option.some item =>
      let s1 := { s with currentItem := some item }
      let s2 := ensureAudioEnabled s1
      if item.playlistId ≠ "" then playFromPlaylist s2 item.playlistId 0 else s2

/-- The trim() of the input field value: strip whitespace from both
ends of the string. -/
def trimString (s : String) : String :=
  String.mk
    (((s.data.dropWhile Char.isWhitespace).reverse.dropWhile Char.isWhitespace).reverse)

/-- The click handler of the load-video button in setupDOMControls: a
nonempty trimmed URL plays as a single video outside any playlist;
otherwise the current item playlist (or the creators fallback) restarts
at index 0. -/
def loadButtonClick (s : AppState) (inputValue : String) : AppState :=
  let customUrl := trimString inputValue
  if customUrl ≠ "" then
    let s1 := { s with isPlaying := false, currentPlaylistId := none }
    let s2 := setVideoSrcAndLoad s1 customUrl
    { s2 with onloadeddata := LoadedHandler.play, onended := EndedHandler.noHandler }
  else
    match s.currentItem with
    | Option.some item =>
      if item.playlistId ≠ "" then playFromPlaylist s item.playlistId 0
      else playFromPlaylist s "creators" 0
    | Option.none => playFromPlaylist s "creators" 0

/-- The vol-up button click handler: changeVolume(0.1). -/
def volUpClick (s : AppState) : AppState := changeVolume s (1/10)

/-- The vol-down button click handler: changeVolume(-0.1). -/
def volDownClick (s : AppState) : AppState := changeVolume s (-(1/10))

/-- The seek-forward button click handler: seekBy(10). -/
def seekForwardClick (s : AppState) : AppState := seekBy s 10

/-- The seek-back button click handler: seekBy(-10). -/
def seekBackClick (s : AppState) : AppState := seekBy s (-10)

/-- Resetting a panel to its rest visual state, as in updateHover:
scale.set(1,1,1) and emissiveIntensity 0. -/
def resetPanelVisual (s : AppState) (i : Nat) : AppState :=
  { s with panelScales := fun j => if j = i then 1 else s.panelScales j,
           panelEmissives := fun j => if j = i then 0 else s.panelEmissives j }

/-- Highlighting a panel, as in updateHover: scale.set(1.05,1.05,1.05)
and emissiveIntensity 0.25. -/
def highlightPanelVisual (s : AppState) (i : Nat) : AppState :=
  { s with panelScales := fun j => if j = i then 105/100 else s.panelScales j,
           panelEmissives := fun j => if j = i then 25/100 else s.panelEmissives j }

/-- updateHover of main.js, with the raycast result (index of the hit
panel, if any) passed in, since raycasting is delegated to the
rendering library. -/
def updateHover (s : AppState) (hit : Option Nat) : AppState :=
  match hit with
  | Option.some h =>
    let s1 :=
      match s.hoveredPanel with
      | Option.some prev => if prev ≠ h then resetPanelVisual s prev else s
      | Option.none => s
    { highlightPanelVisual s1 h with hoveredPanel := some h }
  | Option.none =>
    match s.hoveredPanel with
    | Option.some prev => { resetPanelVisual s prev with hoveredPanel := none }
    | Option.none => { s with hoveredPanel := none }

/-- The vertical position the render loop writes to panel i at time t:
the source line is position.y = 0.65 + Math.sin(t + i) * 0.03. Generic
in the number field with Math.sin passed in, so the definition stays
executable; theorems instantiate it at the real sine. -/
def renderPanelY (F : Type) [LinearOrderedField F] (sinF : F → F) (t : F) (i : Nat) : F :=
  65/100 + sinF (t + (i : F)) * (3/100)

/-- The vertical position the render loop writes to the curved screen at
time t: the source line is position.y = 2.1 + Math.sin(t * 0.5) * 0.05. -/
def renderScreenY (F : Type) [LinearOrderedField F] (sinF : F → F) (t : F) : F :=
  21/10 + sinF (t * (1/2)) * (5/100)

/-- The state after the init pipeline of main.js: setupPanels leaves
currentItem at the first trending item; setupVideoScreen mutes the
video, sets loop, points src at the first creators entry and sets the
cursor accordingly; the loadeddata listener installed there plays; all
panels start at scale 1 with no glow. -/
def initState : AppState :=
  { currentItem := some item1,
    currentPlaylistId := some "creators",
    currentPlaylistIndex := 0,
    audioEnabled := false,
    isPlaying := false,
    video := { src := "https://commondatastorage.googleapis.com/gtv-videos-bucket/sample/BigBuckBunny.mp4",
               currentTime := 0, duration := none, volume := 1, muted := true, loop := true },
    onended := EndedHandler.noHandler,
    onloadeddata := LoadedHandler.play,
    hoveredPanel := none,
    panelScales := fun _ => 1,
    panelEmissives := fun _ => 0,
    overlayError := "" }

/-- The four-field playlist cursor named by the specification:
currentItem, currentPlaylistId, currentPlaylistIndex, audioEnabled. -/
def playlistCursor (s : AppState) : Option Item × Option String × Nat × Bool :=
  (s.currentItem, s.currentPlaylistId, s.currentPlaylistIndex, s.audioEnabled)

/-- Invariant of the hover subsystem: every panel other than the one
recorded in hoveredPanel is at rest (scale 1, emissive intensity 0). -/
def hoverInvariant (s : AppState) : Prop :=
  ∀ j, j < numPanels → s.hoveredPanel ≠ some j →
    s.panelScales j = 1 ∧ s.panelEmissives j = 0

/- Shared helper lemmas. -/

/-- On a valid playlist, playFromPlaylist is the record update that sets
the cursor, loads the entry at startIndex mod length, and installs the
two handlers. -/
theorem playFromPlaylist_valid_eq (s : AppState) (pid : String) (i : Nat) (list : List String)
    (hp : playlists pid = some list) (hne : list.length ≠ 0) :
    playFromPlaylist s pid i =
      { s with currentPlaylistId := some pid,
               currentPlaylistIndex := i % list.length,
               isPlaying := false,
               video := { s.video with
                          src := list.getD (i % list.length) "",
                          currentTime := 0,
                          duration := none },
               onloadeddata := LoadedHandler.play,
               onended := EndedHandler.advance pid } := by
  simp [playFromPlaylist, hp, hne, setVideoSrcAndLoad]

/-- ensureAudioEnabled never changes the current item. -/
theorem ensureAudioEnabled_currentItem (s : AppState) :
    (ensureAudioEnabled s).currentItem = s.currentItem := by
  simp only [ensureAudioEnabled]
  split <;> rfl

/-- With a panel carrying an item whose playlistId is truthy,
activatePanel records the item and replays its playlist from 0. -/
theorem activatePanel_item_eq (s : AppState) (p : Panel) (item : Item)
    (hitem : p.item = some item) (hpid : item.playlistId ≠ "") :
    activatePanel s (some p) =
      playFromPlaylist (ensureAudioEnabled { s with currentItem := some item })
        item.playlistId 0 := by
  simp [activatePanel, hitem, hpid]

/-- Field-level consequences of activating a panel with a valid
playlist. -/
theorem activatePanel_fields (s : AppState) (p : Panel) (item : Item) (list : List String)
    (hitem : p.item = some item) (hpid : item.playlistId ≠ "")
    (hp : playlists item.playlistId = some list) (hne : list.length ≠ 0) :
    (activatePanel s (some p)).currentItem = some item ∧
    (activatePanel s (some p)).currentPlaylistId = some item.playlistId ∧
    (activatePanel s (some p)).currentPlaylistIndex = 0 ∧
    (activatePanel s (some p)).video.src = list.getD 0 "" ∧
    (activatePanel s (some p)).onloadeddata = LoadedHandler.play ∧
    (fireLoadedData (activatePanel s (some p))).isPlaying = true := by
  rw [activatePanel_item_eq s p item hitem hpid,
      playFromPlaylist_valid_eq _ _ _ _ hp hne]
  refine ⟨?_, rfl, by simp, by simp, rfl, by simp [fireLoadedData, playVideoResolved]⟩
  have h := ensureAudioEnabled_currentItem { s with currentItem := some item }
  simpa using h

/- Claim C1: panel activation plays the associated playlist. -/

/-- C1: activating any panel of the scene (desktop click or XR select)
sets the current item to the panel item and starts playback of a
streamed video of that item playlist on the curved screen, beginning at
playlist index 0. -/
theorem activatePanel_plays_playlist_from_zero (s : AppState) (p : Panel)
    (hp : p ∈ scenePanels) :
    ∃ item list, p.item = some item ∧ playlists item.playlistId = some list ∧
      list ≠ [] ∧
      (activatePanel s (some p)).currentItem = some item ∧
      (activatePanel s (some p)).currentPlaylistId = some item.playlistId ∧
      (activatePanel s (some p)).currentPlaylistIndex = 0 ∧
      (activatePanel s (some p)).video.src = list.getD 0 "" ∧
      (activatePanel s (some p)).onloadeddata = LoadedHandler.play ∧
      (fireLoadedData (activatePanel s (some p))).isPlaying = true := by
  have hp4 : p = { item := some item1 } ∨ p = { item := some item2 } ∨
      p = { item := some item3 } ∨ p = { item := some item4 } := by
    simpa [scenePanels, trendingItems] using hp
  rcases hp4 with rfl | rfl | rfl | rfl
  · exact ⟨item1, _, rfl, rfl, by decide,
      activatePanel_fields _ _ item1 _ rfl (by decide) rfl (by decide)⟩
  · exact ⟨item2, _, rfl, rfl, by decide,
      activatePanel_fields _ _ item2 _ rfl (by decide) rfl (by decide)⟩
  · exact ⟨item3, _, rfl, rfl, by decide,
      activatePanel_fields _ _ item3 _ rfl (by decide) rfl (by decide)⟩
  · exact ⟨item4, _, rfl, rfl, by decide,
      activatePanel_fields _ _ item4 _ rfl (by decide) rfl (by decide)⟩

/-- Witness for C1: activating the first scene panel from the initial
state selects item1 and loads entry 0 of the creators playlist. -/
theorem activatePanel_plays_playlist_from_zero_witness :
    ({ item := some item1 } : Panel) ∈ scenePanels ∧
    ∃ item list, (Panel.mk (some item1)).item = some item ∧
      playlists item.playlistId = some list ∧ list ≠ [] ∧
      (activatePanel initState (some { item := some item1 })).currentItem = some item ∧
      (activatePanel initState (some { item := some item1 })).currentPlaylistId = some item.playlistId ∧
      (activatePanel initState (some { item := some item1 })).currentPlaylistIndex = 0 ∧
      (activatePanel initState (some { item := some item1 })).video.src = list.getD 0 "" ∧
      (activatePanel initState (some { item := some item1 })).onloadeddata = LoadedHandler.play ∧
      (fireLoadedData (activatePanel initState (some { item := some item1 }))).isPlaying = true := by
  refine ⟨by decide, ?_⟩
  exact activatePanel_plays_playlist_from_zero initState { item := some item1 } (by decide)

/- Claim C9: playlist index arithmetic. -/

/-- C9: on a nonempty playlist, playFromPlaylist sets the cursor index
to startIndex mod length, which is a valid index, and the installed
ended handler advances to index (current + 1) mod length, wrapping from
the last entry to the first. -/
theorem playFromPlaylist_index_mod (s : AppState) (pid : String) (i : Nat) (list : List String)
    (hp : playlists pid = some list) (hne : list ≠ []) :
    (playFromPlaylist s pid i).currentPlaylistIndex = i % list.length ∧
    (playFromPlaylist s pid i).currentPlaylistIndex < list.length ∧
    (playFromPlaylist s pid i).currentPlaylistId = some pid ∧
    (playFromPlaylist s pid i).onended = EndedHandler.advance pid ∧
    (fireEnded (playFromPlaylist s pid i)).currentPlaylistIndex =
      (i % list.length + 1) % list.length ∧
    (fireEnded (playFromPlaylist s pid i)).video.src =
      list.getD ((i % list.length + 1) % list.length) "" := by
  have hlen : list.length ≠ 0 := by simpa using hne
  have hpos : 0 < list.length := Nat.pos_of_ne_zero hlen
  rw [playFromPlaylist_valid_eq s pid i list hp hlen]
  refine ⟨rfl, Nat.mod_lt _ hpos, rfl, rfl, ?_, ?_⟩
  · simp [fireEnded, hp, hlen, playFromPlaylist_valid_eq _ _ _ _ hp hlen, Nat.mod_mod]
  · simp [fireEnded, hp, hlen, playFromPlaylist_valid_eq _ _ _ _ hp hlen, Nat.mod_mod]

/-- Witness for C9: starting the music playlist at index 3 lands on
index 1 of its two entries, and the ended handler wraps to index 0. -/
theorem playFromPlaylist_index_mod_witness :
    (playFromPlaylist initState "music" 3).currentPlaylistIndex = 1 ∧
    (fireEnded (playFromPlaylist initState "music" 3)).currentPlaylistIndex = 0 := by
  have h := playFromPlaylist_index_mod initState "music" 3
    ["https://commondatastorage.googleapis.com/gtv-videos-bucket/sample/ForBiggerJoyrides.mp4",
     "https://commondatastorage.googleapis.com/gtv-videos-bucket/sample/ForBiggerBlazes.mp4"]
    rfl (by decide)
  exact ⟨h.1, h.2.2.2.2.1⟩

/- Claim C10: error paths leave the state alone. -/

/-- C10: playFromPlaylist on an unknown or empty playlist only reports
an error, leaving the cursor and the video element untouched, and
activatePanel with no panel or a panel carrying no item changes
nothing. -/
theorem error_paths_state_unchanged (s : AppState) (pid : String) (i : Nat) (p : Panel)
    (hbad : playlists pid = none ∨ playlists pid = some [])
    (hnoitem : p.item = none) :
    playFromPlaylist s pid i = reportError s "Playlist" ∧
    (playFromPlaylist s pid i).currentPlaylistId = s.currentPlaylistId ∧
    (playFromPlaylist s pid i).currentPlaylistIndex = s.currentPlaylistIndex ∧
    (playFromPlaylist s pid i).video = s.video ∧
    (playFromPlaylist s pid i).overlayError = "Playlist" ∧
    activatePanel s none = s ∧
    activatePanel s (some p) = s := by
  have h1 : playFromPlaylist s pid i = reportError s "Playlist" := by
    rcases hbad with hb | hb <;> simp [playFromPlaylist, hb]
  refine ⟨h1, ?_, ?_, ?_, ?_, rfl, ?_⟩
  · rw [h1]; rfl
  · rw [h1]; rfl
  · rw [h1]; rfl
  · rw [h1]; rfl
  · simp [activatePanel, hnoitem]

/-- Witness for C10: an unknown playlist id and an item-free panel from
the initial state. -/
theorem error_paths_state_unchanged_witness :
    playFromPlaylist initState "sports" 0 = reportError initState "Playlist" ∧
    activatePanel initState (some { item := none }) = initState := by
  have h := error_paths_state_unchanged initState "sports" 0 { item := none }
    (Or.inl rfl) rfl
  exact ⟨h.1, h.2.2.2.2.2.2⟩

/- Claim C3: volume buttons. -/

/-- C3: each click of the vol-up (resp. vol-down) button changes the
video volume by +0.1 (resp. -0.1) with the result clamped to the unit
interval. -/
theorem volume_buttons_step_clamped (s : AppState) :
    (volUpClick s).video.volume = max 0 (min 1 (s.video.volume + 1/10)) ∧
    (volDownClick s).video.volume = max 0 (min 1 (s.video.volume - 1/10)) ∧
    0 ≤ (volUpClick s).video.volume ∧ (volUpClick s).video.volume ≤ 1 ∧
    0 ≤ (volDownClick s).video.volume ∧ (volDownClick s).video.volume ≤ 1 := by
  have hup : (volUpClick s).video.volume = max 0 (min 1 (s.video.volume + 1/10)) := by
    simp only [volUpClick, changeVolume]
    split <;> rfl
  have hdn : (volDownClick s).video.volume = max 0 (min 1 (s.video.volume - 1/10)) := by
    simp only [volDownClick, changeVolume]
    split <;> simp [sub_eq_add_neg]
  refine ⟨hup, hdn, ?_, ?_, ?_, ?_⟩
  · rw [hup]; exact le_max_left 0 _
  · rw [hup]; exact max_le (by norm_num) (min_le_left 1 _)
  · rw [hdn]; exact le_max_left 0 _
  · rw [hdn]; exact max_le (by norm_num) (min_le_left 1 _)

/- Claim C4: seek buttons. -/

/-- The sequential clamping of seekBy equals a lower clamp to 0 followed
by, for a known nonzero duration, an upper clamp to duration - 0.1. -/
theorem seekBy_currentTime_eq (s : AppState) (delta : ℚ) :
    (seekBy s delta).video.currentTime =
      if s.video.duration.getD 0 ≠ 0
      then min (max 0 (s.video.currentTime + delta)) (s.video.duration.getD 0 - 1/10)
      else max 0 (s.video.currentTime + delta) := by
  simp only [seekBy]
  set a := s.video.currentTime + delta with ha
  set d := s.video.duration.getD 0 with hd0
  by_cases hd : d = 0
  · simp only [hd, ne_eq, not_true_eq_false, false_and, if_false]
    rcases lt_or_le a 0 with h | h
    · rw [if_pos h, max_eq_left (le_of_lt h)]
    · rw [if_neg (not_lt.mpr h), max_eq_right h]
  · rw [if_pos hd]
    rcases lt_or_le a 0 with h | h
    · simp only [if_pos h]
      rw [max_eq_left (le_of_lt h)]
      rcases lt_or_le (d - 1/10) 0 with h2 | h2
      · rw [if_pos ⟨hd, h2⟩, min_eq_right (le_of_lt h2)]
      · rw [if_neg (fun hc => absurd hc.2 (not_lt.mpr h2)), min_eq_left h2]
    · simp only [if_neg (not_lt.mpr h)]
      rw [max_eq_right h]
      rcases lt_or_le (d - 1/10) a with h2 | h2
      · rw [if_pos ⟨hd, h2⟩, min_eq_right (le_of_lt h2)]
      · rw [if_neg (fun hc => absurd hc.2 (not_lt.mpr h2)), min_eq_left h2]

/-- C4: each click of the seek-back (resp. seek-forward) button moves
the playback position by -10 (resp. +10) seconds, clamped below to 0
and, when the duration is known and nonzero, clamped above to the
duration minus 0.1 seconds. -/
theorem seek_buttons_step_clamped (s : AppState) :
    (seekBackClick s).video.currentTime =
      (if s.video.duration.getD 0 ≠ 0
       then min (max 0 (s.video.currentTime - 10)) (s.video.duration.getD 0 - 1/10)
       else max 0 (s.video.currentTime - 10)) ∧
    (seekForwardClick s).video.currentTime =
      (if s.video.duration.getD 0 ≠ 0
       then min (max 0 (s.video.currentTime + 10)) (s.video.duration.getD 0 - 1/10)
       else max 0 (s.video.currentTime + 10)) := by
  constructor
  · have h := seekBy_currentTime_eq s (-10)
    simpa [seekBackClick, sub_eq_add_neg] using h
  · exact seekBy_currentTime_eq s 10

/-- Every trending item has a truthy playlistId naming a nonempty
playlist. -/
theorem trendingItem_playlist_ok (item : Item) (hmem : item ∈ trendingItems) :
    item.playlistId ≠ "" ∧
    ∃ list, playlists item.playlistId = some list ∧ list.length ≠ 0 := by
  have h4 : item = item1 ∨ item = item2 ∨ item = item3 ∨ item = item4 := by
    simpa [trendingItems] using hmem
  rcases h4 with rfl | rfl | rfl | rfl
  · exact ⟨by decide, _, rfl, by decide⟩
  · exact ⟨by decide, _, rfl, by decide⟩
  · exact ⟨by decide, _, rfl, by decide⟩
  · exact ⟨by decide, _, rfl, by decide⟩

/- Claim C7: the load-video button. -/

/-- C7: clicking load-video with a nonempty trimmed URL loads that URL
as the current video, leaves playlist mode (currentPlaylistId null) and
clears the onended handler; with an empty input it restarts the current
item playlist from index 0, falling back to the creators playlist when
there is no current item. The hypothesis on currentItem reflects that
main.js only ever stores trending items there. -/
theorem loadButton_custom_or_restart (s : AppState) (input : String)
    (hreach : s.currentItem = none ∨
      ∃ item, item ∈ trendingItems ∧ s.currentItem = some item) :
    (trimString input ≠ "" →
      (loadButtonClick s input).video.src = trimString input ∧
      (loadButtonClick s input).currentPlaylistId = none ∧
      (loadButtonClick s input).onended = EndedHandler.noHandler) ∧
    (trimString input = "" →
      (∀ item, s.currentItem = some item →
        loadButtonClick s input = playFromPlaylist s item.playlistId 0 ∧
        (loadButtonClick s input).currentPlaylistIndex = 0 ∧
        (loadButtonClick s input).currentPlaylistId = some item.playlistId) ∧
      (s.currentItem = none → loadButtonClick s input = playFromPlaylist s "creators" 0)) := by
  constructor
  · intro h
    simp [loadButtonClick, h, setVideoSrcAndLoad]
  · intro h
    constructor
    · intro item hitem
      have hmem : item ∈ trendingItems := by
        rcases hreach with hnone | ⟨item0, hmem0, heq0⟩
        · rw [hnone] at hitem; cases hitem
        · rw [heq0] at hitem
          cases hitem
          exact hmem0
      obtain ⟨hpid, list, hpl, hlen⟩ := trendingItem_playlist_ok item hmem
      have heq : loadButtonClick s input = playFromPlaylist s item.playlistId 0 := by
        simp [loadButtonClick, h, hitem, hpid]
      refine ⟨heq, ?_, ?_⟩
      · rw [heq, playFromPlaylist_valid_eq _ _ _ _ hpl hlen]
        simp
      · rw [heq, playFromPlaylist_valid_eq _ _ _ _ hpl hlen]
    · intro hnone
      simp [loadButtonClick, h, hnone]

/-- Witness for C7: from the initial state (current item item1), an
all-whitespace input restarts the creators playlist at index 0, and a
concrete URL input leaves playlist mode. -/
theorem loadButton_custom_or_restart_witness :
    (loadButtonClick initState "  " = playFromPlaylist initState item1.playlistId 0 ∧
     (loadButtonClick initState "  ").currentPlaylistIndex = 0) ∧
    (loadButtonClick initState "http://x/v.mp4").currentPlaylistId = none := by
  have hreach : initState.currentItem = none ∨
      ∃ item, item ∈ trendingItems ∧ initState.currentItem = some item :=
    Or.inr ⟨item1, by decide, rfl⟩
  have h1 := (loadButton_custom_or_restart initState "  " hreach).2 (by decide) |>.1 item1 rfl
  have h2 := (loadButton_custom_or_restart initState "http://x/v.mp4" hreach).1 (by decide)
  exact ⟨⟨h1.1, h1.2.1⟩, h2.2.1⟩

/- Claim C8: changeVolume invariant. -/

/-- C8: after changeVolume(delta) the volume lies in the unit interval,
and whenever the resulting volume is positive the video is unmuted and
audioEnabled is true. -/
theorem changeVolume_volume_invariant (s : AppState) (delta : ℚ) :
    0 ≤ (changeVolume s delta).video.volume ∧
    (changeVolume s delta).video.volume ≤ 1 ∧
    (0 < (changeVolume s delta).video.volume →
      (changeVolume s delta).video.muted = false ∧
      (changeVolume s delta).audioEnabled = true) := by
  have hvol : (changeVolume s delta).video.volume = max 0 (min 1 (s.video.volume + delta)) := by
    simp only [changeVolume]
    split <;> rfl
  refine ⟨?_, ?_, ?_⟩
  · rw [hvol]; exact le_max_left 0 _
  · rw [hvol]; exact max_le (by norm_num) (min_le_left 1 _)
  · intro hpos
    rw [hvol] at hpos
    simp only [changeVolume]
    rw [if_pos hpos]
    exact ⟨rfl, rfl⟩

/-- Witness for C8 at a concrete input: starting from the initial state
(volume 1), volume down yields volume 9/10 which is positive, so the
video is unmuted and audioEnabled holds. -/
theorem changeVolume_volume_invariant_witness :
    (0 : ℚ) < (changeVolume initState (-(1/10))).video.volume ∧
    (changeVolume initState (-(1/10))).video.muted = false ∧
    (changeVolume initState (-(1/10))).audioEnabled = true := by
  refine ⟨by norm_num [changeVolume, initState], ?_⟩
  exact (changeVolume_volume_invariant initState (-(1/10))).2.2
    (by norm_num [changeVolume, initState])

/- Claim C2: how many fields of mutable playback state there are. -/

/-- C2 counterexample: the four-field playlist cursor does not exhaust
the mutable playback state. Resolving play() and then clicking pause
leaves all four cursor fields (currentItem, currentPlaylistId,
currentPlaylistIndex, audioEnabled) unchanged while the mutable
playback flag isPlaying flips, so the playback/playlist state has a
fifth field beyond the cursor. -/
theorem playback_state_not_four_fields :
    playlistCursor (playVideoResolved initState) =
      playlistCursor (pauseVideo (playVideoResolved initState)) ∧
    (playVideoResolved initState).isPlaying ≠
      (pauseVideo (playVideoResolved initState)).isPlaying := by
  exact ⟨rfl, by decide⟩

/-- C2 amended: the mutable playback/playlist state of main.js consists
of five fields, the four-field playlist cursor plus the isPlaying flag;
each of the five is genuinely mutated by some program operation. -/
theorem playback_state_five_fields :
    (activatePanel initState (some { item := some item2 })).currentItem ≠
      initState.currentItem ∧
    (playFromPlaylist initState "music" 0).currentPlaylistId ≠
      initState.currentPlaylistId ∧
    (playFromPlaylist initState "music" 1).currentPlaylistIndex ≠
      initState.currentPlaylistIndex ∧
    (changeVolume initState (1/10)).audioEnabled ≠ initState.audioEnabled ∧
    (playVideoResolved initState).isPlaying ≠ initState.isPlaying := by
  refine ⟨by decide, by decide, by decide, ?_, by decide⟩
  norm_num [changeVolume, initState]

/- Claim C6: hover highlighting. -/

/-- Pointwise effect of updateHover on panel visuals, assuming every
panel other than the recorded hovered one is at rest. -/
theorem updateHover_pointwise (s : AppState) (hit : Option Nat) (hInv : hoverInvariant s)
    (j : Nat) (hj : j < numPanels) :
    (hit = some j → (updateHover s hit).panelScales j = 105/100 ∧
      (updateHover s hit).panelEmissives j = 25/100) ∧
    (hit ≠ some j → (updateHover s hit).panelScales j = 1 ∧
      (updateHover s hit).panelEmissives j = 0) := by
  rcases hit with _ | h
  · refine ⟨fun hc => Option.noConfusion hc, fun _ => ?_⟩
    rcases hhp : s.hoveredPanel with _ | prev
    · simp only [updateHover, hhp]
      exact hInv j hj (by rw [hhp]; exact fun hc => Option.noConfusion hc)
    · simp only [updateHover, hhp]
      by_cases hjp : j = prev
      · subst hjp
        simp [resetPanelVisual]
      · have hrest := hInv j hj
          (by rw [hhp]; exact fun hc => hjp (Option.some.inj hc).symm)
        simp [resetPanelVisual, hjp, hrest.1, hrest.2]
  · constructor
    · intro hc
      obtain rfl : h = j := Option.some.inj hc
      simp [updateHover, highlightPanelVisual]
    · intro hne
      have hhj : ¬ (j = h) := fun hc => hne (by rw [hc])
      simp only [updateHover]
      rcases hhp : s.hoveredPanel with _ | prev
      · simp only [hhp]
        have hrest := hInv j hj (by rw [hhp]; exact fun hc => Option.noConfusion hc)
        simp [highlightPanelVisual, hhj, hrest.1, hrest.2]
      · by_cases hph : prev = h
        · subst hph
          have hrest := hInv j hj
            (by rw [hhp]; exact fun hc => hhj (Option.some.inj hc).symm)
          simp [hhp, highlightPanelVisual, hhj, hrest.1, hrest.2]
        · by_cases hjp : j = prev
          · subst hjp
            simp [hhp, hph, highlightPanelVisual, resetPanelVisual, hhj]
          · have hrest := hInv j hj
              (by rw [hhp]; exact fun hc => hjp (Option.some.inj hc).symm)
            simp [hhp, hph, highlightPanelVisual, resetPanelVisual, hhj, hjp,
              hrest.1, hrest.2]

/-- C6: updateHover records the hit panel, gives it scale 1.05 and
emissive intensity 0.25, puts every other panel (a previously hovered
one included) at scale 1 and emissive intensity 0, preserves the hover
invariant, and therefore highlights at most one panel at a time. -/
theorem updateHover_highlights_unique (s : AppState) (hit : Option Nat)
    (hInv : hoverInvariant s) :
    (updateHover s hit).hoveredPanel = hit ∧
    (∀ j, j < numPanels →
      (hit = some j → (updateHover s hit).panelScales j = 105/100 ∧
        (updateHover s hit).panelEmissives j = 25/100) ∧
      (hit ≠ some j → (updateHover s hit).panelScales j = 1 ∧
        (updateHover s hit).panelEmissives j = 0)) ∧
    hoverInvariant (updateHover s hit) ∧
    (∀ j k, j < numPanels → k < numPanels →
      (updateHover s hit).panelScales j ≠ 1 →
      (updateHover s hit).panelScales k ≠ 1 → j = k) := by
  have hpt := fun j hj => updateHover_pointwise s hit hInv j hj
  have hhov : (updateHover s hit).hoveredPanel = hit := by
    rcases hit with _ | h
    · simp only [updateHover]
      rcases hhp : s.hoveredPanel with _ | prev <;> simp [hhp]
    · rfl
  refine ⟨hhov, hpt, ?_, ?_⟩
  · intro j hj hne
    rw [hhov] at hne
    exact (hpt j hj).2 hne
  · intro j k hj hk hsj hsk
    by_cases hcj : hit = some j
    · by_cases hck : hit = some k
      · rw [hcj] at hck
        exact Option.some.inj hck
      · exact absurd ((hpt k hk).2 hck).1 hsk
    · exact absurd ((hpt j hj).2 hcj).1 hsj

/-- Witness for C6: from the initial state, hovering panel 0 highlights
exactly panel 0 and leaves panel 1 at rest. -/
theorem updateHover_highlights_unique_witness :
    hoverInvariant initState ∧
    (updateHover initState (some 0)).hoveredPanel = some 0 ∧
    (updateHover initState (some 0)).panelScales 0 = 105/100 ∧
    (updateHover initState (some 0)).panelScales 1 = 1 := by
  have hInv : hoverInvariant initState := fun j hj hne => ⟨rfl, rfl⟩
  have h := updateHover_highlights_unique initState (some 0) hInv
  exact ⟨hInv, h.1, ((h.2.1 0 (by decide)).1 rfl).1, ((h.2.1 1 (by decide)).2 (by decide)).1⟩

/- Claim C5: render loop sinusoidal bobbing. -/

/-- C5: on each rendered frame at time t the render loop sets the height
of panel i to 0.65 + 0.03*sin(t+i) and the curved screen height to
2.1 + 0.05*sin(0.5*t); both stay within a fixed band around their base
heights. -/
theorem render_bobbing_sinusoids (t : ℝ) (i : Nat) :
    renderPanelY ℝ Real.sin t i = 0.65 + 0.03 * Real.sin (t + i) ∧
    renderScreenY ℝ Real.sin t = 2.1 + 0.05 * Real.sin (0.5 * t) ∧
    |renderPanelY ℝ Real.sin t i - 0.65| ≤ 0.03 ∧
    |renderScreenY ℝ Real.sin t - 2.1| ≤ 0.05 := by
  have hp : renderPanelY ℝ Real.sin t i = 65/100 + Real.sin (t + (i:ℝ)) * (3/100) := rfl
  have hs : renderScreenY ℝ Real.sin t = 21/10 + Real.sin (t * (1/2)) * (5/100) := rfl
  have harg : t * (1/2) = 0.5 * t := by ring
  have h1 := Real.neg_one_le_sin (t + (i:ℝ))
  have h2 := Real.sin_le_one (t + (i:ℝ))
  have h3 := Real.neg_one_le_sin (t * (1/2))
  have h4 := Real.sin_le_one (t * (1/2))
  refine ⟨?_, ?_, ?_, ?_⟩
  · rw [hp]
    norm_num
    ring
  · rw [hs, harg]
    norm_num
    ring
  · rw [hp, abs_le]
    constructor <;> nlinarith
  · rw [hs, abs_le]
    constructor <;> nlinarith

end VibeSphere
